import Mathlib

/-
Verification of the chat client state machine of sepehrfazeli/chatapp-frontend.

The repository has two variants of the client component:
  * the identity-aware variant (a component tracking a server-assigned
    `userId`, a yup validation schema, an `isSubmitting` flag, and three
    remote calls JoinChat / UpdateUserName / SendMessage);
  * the simple variant (src/App.jsx: no identity, no validation schema,
    SendMessage takes the display name directly).

Both are shallowly embedded below.  React state is modelled as explicit
record values; each event handler and each effect body is a pure function
from state (plus the externally supplied inputs: remote-call outcomes,
event payloads, and the id values produced by Date.now / Math.random) to
state together with the list/option of remote invocations it emits.
-/

namespace ChatApp

/-! Character limits (constants from the source). -/

def NAME_MAX_LENGTH : Nat := 20
def MESSAGE_MAX_LENGTH : Nat := 500
def NAME_MIN_LENGTH : Nat := 2
def MESSAGE_MIN_LENGTH : Nat := 1

/-- Models JavaScript `String.prototype.trim`: drop whitespace from both
ends of the string.  Defined over the character list so that it computes
by kernel reduction. -/
def jsTrim (s : String) : String :=
  ⟨((s.data.dropWhile Char.isWhitespace).reverse.dropWhile Char.isWhitespace).reverse⟩

/-- A message of the identity-aware variant:
`{ user, message, timestamp, userId: messageUserId, id: Date.now() + Math.random() }`.
The id value is whatever the generator produced when the handler ran; it is
modelled as a `Nat` supplied from outside. -/
structure Message where
  id : Nat
  user : String
  message : String
  timestamp : Option String
  userId : Option Nat
deriving Repr, DecidableEq

/-- A message of the simple variant: `{ user, message, id: Date.now() }`. -/
structure SMessage where
  id : Nat
  user : String
  message : String
deriving Repr, DecidableEq

/-- Inbound hub events consumed by the identity-aware variant.
`receive` carries the `ReceiveMessage` payload plus the id value the
generator (`Date.now() + Math.random()`) produced at handling time;
`renamed` carries the `UserNameUpdated` payload. -/
inductive HubEvent where
  | receive (user msg : String) (timestamp : Option String) (msgUserId : Option Nat)
      (freshId : Nat)
  | renamed (oldName newName : String) (updatedUserId : Option Nat)
deriving Repr, DecidableEq

/-- The `UserNameUpdated` handler: map over the log, rewriting the `user`
field of every message whose stored `userId` equals the event's id
(`msg.userId === updatedUserId`); `oldName` is received but unused. -/
def userNameUpdated (msgs : List Message) (newName : String)
    (updatedUserId : Option Nat) : List Message :=
  msgs.map fun msg =>
    if msg.userId = updatedUserId then { msg with user := newName } else msg

/-- Dispatch of the two inbound handlers of the identity-aware variant.
`ReceiveMessage` appends `{ user, message, timestamp, userId, id }` to the
log; `UserNameUpdated` maps the rename over the log. -/
def handleEvent (msgs : List Message) : HubEvent → List Message
  | HubEvent.receive u m t uid fid =>
      msgs ++ [{ id := fid, user := u, message := m, timestamp := t, userId := uid }]
  | HubEvent.renamed _ newName uid => userNameUpdated msgs newName uid

/-- The `ReceiveMessage` handler of the simple variant:
append `{ user, message, id: Date.now() }`; `now` is the clock value
`Date.now()` returned when the handler ran. -/
def receiveMessageS (msgs : List SMessage) (user msg : String) (now : Nat) :
    List SMessage :=
  msgs ++ [{ id := now, user := user, message := msg }]

/-- The payload of one `ReceiveMessage` event together with the id value
generated at handling time. -/
structure ReceivePayload where
  user : String
  message : String
  timestamp : Option String
  msgUserId : Option Nat
  freshId : Nat
deriving Repr, DecidableEq

/-- The message the `ReceiveMessage` handler builds from a payload. -/
def payloadMessage (p : ReceivePayload) : Message :=
  { id := p.freshId
    user := p.user
    message := p.message
    timestamp := p.timestamp
    userId := p.msgUserId }

/-- Processing a list of `ReceiveMessage` events strictly in arrival order
(each handler runs to completion before the next). -/
def receiveAll (msgs : List Message) : List ReceivePayload → List Message
  | [] => msgs
  | p :: ps =>
      receiveAll
        (handleEvent msgs (HubEvent.receive p.user p.message p.timestamp p.msgUserId p.freshId))
        ps

/-! ## Session state -/

/-- State of the identity-aware component: the `useState` cells
`connection` (modelled by whether one exists), `connected`, `userId`,
`userName`, `messageInput`, `isSubmitting`, `validationErrors` (the single
`error` entry of the object, or `none` for `{}`), and `messages`. -/
structure SessionA where
  hasConnection : Bool
  connected : Bool
  userId : Option Nat
  userName : String
  messageInput : String
  isSubmitting : Bool
  validationErrors : Option String
  messages : List Message
deriving Repr, DecidableEq

/-- State of the simple variant: `connection`, `connected`, `userName`,
`messageInput`, `messages`. -/
structure SessionS where
  hasConnection : Bool
  connected : Bool
  userName : String
  messageInput : String
  messages : List SMessage
deriving Repr, DecidableEq

/-- Outcome of an awaited remote invocation, supplied by the environment. -/
inductive SendOutcome where
  | success
  | failure
deriving Repr, DecidableEq

/-! ## Validation (yup schema, identity-aware variant) -/

/-- The yup schema with abort-early semantics: `string().trim()` first
trims the value, then the rules `required` / `min` / `max` run on the
trimmed value, field by field in declaration order; the result is `none`
on success or `some` of the first failing rule's message. -/
def schemaError (userName messageInput : String) : Option String :=
  if jsTrim userName = "" then some "Name required"
  else if (jsTrim userName).length < NAME_MIN_LENGTH then
    some "userName must be at least 2 characters"
  else if NAME_MAX_LENGTH < (jsTrim userName).length then
    some "userName must be at most 20 characters"
  else if jsTrim messageInput = "" then some "Message required"
  else if (jsTrim messageInput).length < MESSAGE_MIN_LENGTH then
    some "messageInput must be at least 1 characters"
  else if MESSAGE_MAX_LENGTH < (jsTrim messageInput).length then
    some "messageInput must be at most 500 characters"
  else none

/-- The `validate` function: on schema success store `{}` (no error) and
return true; on schema failure store `{ error: err.message }` and return
false. -/
def validate (s : SessionA) : Bool × SessionA :=
  match schemaError s.userName s.messageInput with
  | none => (true, { s with validationErrors := none })
  | some e => (false, { s with validationErrors := some e })

/-! ## Outgoing submission -/

/-- The identity-aware `sendMessage` action.  Guards in source order with
short-circuiting: `isSubmitting`, `!connected`, `!userId`, then
`!(await validate())`; if all pass, `isSubmitting` is set for the flight
and the remote call `SendMessage(userId, messageInput.trim())` is made.
On success the message input is cleared; on failure
`validationErrors = { error: 'Send failed' }`; `isSubmitting` is reset in
the `finally` block either way.  Returns the final state and the emitted
remote call (arguments of `SendMessage`), if any. -/
def sendMessageA (s : SessionA) (o : SendOutcome) : SessionA × Option (Nat × String) :=
  if s.isSubmitting then (s, none)
  else if s.connected = false then (s, none)
  else
    match s.userId with
    | none => (s, none)
    | some uid =>
      if (validate s).fst = false then ((validate s).snd, none)
      else
        match o with
        | SendOutcome.success =>
            ({ (validate s).snd with messageInput := "", isSubmitting := false },
              some (uid, jsTrim s.messageInput))
        | SendOutcome.failure =>
            ({ (validate s).snd with
                validationErrors := some "Send failed"
                isSubmitting := false },
              some (uid, jsTrim s.messageInput))

/-- The simple variant's `sendMessage`: guarded by
`messageInput.trim() && userName.trim() && connection`; invokes
`SendMessage(userName.trim(), messageInput)` (the body untrimmed); on
success clears the message input, on failure only logs.  Returns the final
state and the emitted call, if any. -/
def sendMessageS (s : SessionS) (o : SendOutcome) : SessionS × Option (String × String) :=
  if jsTrim s.messageInput ≠ "" ∧ jsTrim s.userName ≠ "" ∧ s.hasConnection = true then
    match o with
    | SendOutcome.success =>
        ({ s with messageInput := "" }, some (jsTrim s.userName, s.messageInput))
    | SendOutcome.failure => (s, some (jsTrim s.userName, s.messageInput))
  else (s, none)

/-! ## Connection lifecycle and identity effects (identity-aware variant) -/

/-- The `onreconnected` callback: `setConnected(true)`. -/
def onReconnected (s : SessionA) : SessionA := { s with connected := true }

/-- The `onclose` callback: `setConnected(false)`. -/
def onClose (s : SessionA) : SessionA := { s with connected := false }

/-- The guard of the `joinChat` effect body
(`connection && connected && userName.trim() && !userId`): the argument of
the `JoinChat` invocation it emits, or `none` when it does not invoke. -/
def joinChatCall (s : SessionA) : Option String :=
  if s.hasConnection = true ∧ s.connected = true ∧ jsTrim s.userName ≠ "" ∧ s.userId = none
  then some (jsTrim s.userName)
  else none

/-- Completion of a successful `JoinChat` invocation:
`setUserId(newUserId)` when the effect invoked, the state unchanged
otherwise. -/
def joinChatApply (s : SessionA) (newUserId : Nat) : SessionA :=
  match joinChatCall s with
  | some _ => { s with userId := some newUserId }
  | none => s

/-- The guard of the `updateName` effect: the outer `if (userId)` plus the
body guard `connection && connected && userId && userName.trim()`; the
argument pair of the `UpdateUserName` invocation it emits, or `none`.
The effect re-runs whenever any of its dependencies
`[connection, connected, userId, userName]` changes; no comparison with a
previously established name appears anywhere in it. -/
def updateNameCall (s : SessionA) : Option (Nat × String) :=
  match s.userId with
  | none => none
  | some uid =>
      if s.hasConnection = true ∧ s.connected = true ∧ jsTrim s.userName ≠ ""
      then some (uid, jsTrim s.userName)
      else none

/-- A session that has just connected and typed the name "Al", before any
identity has been assigned. -/
def joinDemoStart : SessionA :=
  { hasConnection := true
    connected := true
    userId := none
    userName := "Al"
    messageInput := ""
    isSubmitting := false
    validationErrors := none
    messages := [] }

/-! ## Concrete demonstration values -/

/-- A connected session with an established identity and valid inputs. -/
def demoA : SessionA :=
  { hasConnection := true
    connected := true
    userId := some 7
    userName := "Alice"
    messageInput := " hello "
    isSubmitting := false
    validationErrors := some "old error"
    messages := [] }

/-- A connected simple-variant session whose message input has surrounding
whitespace. -/
def demoS : SessionS :=
  { hasConnection := true
    connected := true
    userName := "Bob"
    messageInput := " hi "
    messages := [] }

/-- A simple-variant session whose name has trimmed length 1. -/
def shortNameS : SessionS :=
  { hasConnection := true
    connected := true
    userName := "A"
    messageInput := "hi"
    messages := [] }

/-- A logged message authored by identity 1. -/
def msgA : Message :=
  { id := 1, user := "Alice", message := "hi", timestamp := none, userId := some 1 }

/-- A logged message authored by identity 2. -/
def msgB : Message :=
  { id := 2, user := "Bob", message := "yo", timestamp := some "10:00", userId := some 2 }

/-- A concrete `ReceiveMessage` payload. -/
def pA : ReceivePayload :=
  { user := "a", message := "x", timestamp := none, msgUserId := some 1, freshId := 3 }

/-- Another concrete `ReceiveMessage` payload. -/
def pB : ReceivePayload :=
  { user := "b", message := "y", timestamp := some "t", msgUserId := none, freshId := 4 }

/-! ## Supporting lemmas -/

theorem validate_eq_none (s : SessionA) (h : schemaError s.userName s.messageInput = none) :
    validate s = (true, { s with validationErrors := none }) := by
  unfold validate; rw [h]

theorem validate_eq_some (s : SessionA) (e : String)
    (h : schemaError s.userName s.messageInput = some e) :
    validate s = (false, { s with validationErrors := some e }) := by
  unfold validate; rw [h]

theorem sendA_fst_fields (s : SessionA) (o : SendOutcome) :
    (sendMessageA s o).fst.userName = s.userName
  ∧ (sendMessageA s o).fst.messages = s.messages
  ∧ (sendMessageA s o).fst.userId = s.userId := by
  unfold sendMessageA validate
  rcases h : schemaError s.userName s.messageInput with _ | e <;>
    simp only [h] <;> split <;> try exact ⟨rfl, rfl, rfl⟩
  all_goals (split <;> try exact ⟨rfl, rfl, rfl⟩)
  all_goals (split <;> try exact ⟨rfl, rfl, rfl⟩)
  all_goals (cases o <;> exact ⟨rfl, rfl, rfl⟩)

theorem schemaError_out_of_bounds (userName messageInput : String)
    (h : (jsTrim userName).length < NAME_MIN_LENGTH
       ∨ NAME_MAX_LENGTH < (jsTrim userName).length
       ∨ jsTrim messageInput = ""
       ∨ MESSAGE_MAX_LENGTH < (jsTrim messageInput).length) :
    schemaError userName messageInput ≠ none := by
  unfold schemaError
  split_ifs with h1 h2 h3 h4 h5 h6 <;> try simp
  rcases h with h | h | h | h
  · exact h2 h
  · exact h3 h
  · exact h4 h
  · exact h6 h

theorem sendA_invalid_no_call (s : SessionA) (o : SendOutcome)
    (h : schemaError s.userName s.messageInput ≠ none) :
    (sendMessageA s o).snd = none := by
  rcases he : schemaError s.userName s.messageInput with _ | e
  · exact absurd he h
  · unfold sendMessageA validate
    simp only [he]
    split <;> try rfl
    split <;> try rfl
    split <;> rfl

theorem sendA_isSubmitting_false (s : SessionA) (o : SendOutcome)
    (h : s.isSubmitting = false) :
    (sendMessageA s o).fst.isSubmitting = false := by
  unfold sendMessageA validate
  rcases he : schemaError s.userName s.messageInput with _ | e <;>
    simp only [he] <;> split
  · exact h
  rotate_left
  · exact h
  all_goals (split <;> try exact h)
  all_goals (split <;> try exact h)
  all_goals (cases o <;> rfl)

theorem sendA_success_spec (s : SessionA) (uid : Nat)
    (h1 : s.isSubmitting = false) (h2 : s.connected = true) (h3 : s.userId = some uid)
    (h4 : schemaError s.userName s.messageInput = none) :
    sendMessageA s SendOutcome.success =
      ({ s with validationErrors := none, messageInput := "", isSubmitting := false },
        some (uid, jsTrim s.messageInput)) := by
  unfold sendMessageA
  rw [h1, h2, h3, validate_eq_none s h4]
  simp
  exact ⟨h2, h3⟩

theorem sendS_fst_userName (t : SessionS) (o : SendOutcome) :
    (sendMessageS t o).fst.userName = t.userName := by
  unfold sendMessageS
  split <;> try rfl
  cases o <;> rfl

/-! ## Claim theorems -/

/-- C1: the claim says `UpdateUserName(userId, newName)` is invoked only when
an identity exists and the name subsequently changes to a non-empty trimmed
name different from the established one.  The code has no such comparison:
immediately after `JoinChat("Al")` succeeds (establishing identity 1 with name
"Al"), the `updateName` effect re-runs on the `userId` dependency change and
invokes `UpdateUserName(1, "Al")` with the unchanged name.  `JoinChat` itself
is indeed not re-invoked once `userId` is set. -/
theorem updateName_invoked_without_change :
    joinChatCall joinDemoStart = some "Al"
  ∧ (joinChatApply joinDemoStart 1).userId = some 1
  ∧ (joinChatApply joinDemoStart 1).userName = "Al"
  ∧ updateNameCall (joinChatApply joinDemoStart 1) = some (1, "Al")
  ∧ joinChatCall (joinChatApply joinDemoStart 1) = none := by decide

/-- C2: while a send is in flight (`isSubmitting` true), a second submit
attempt is a no-op: it emits no remote `SendMessage` call and leaves the
state unchanged, so the in-flight call remains the only one. -/
theorem submit_suppressed_while_in_flight (s : SessionA) (o : SendOutcome)
    (h : s.isSubmitting = true) :
    sendMessageA s o = (s, none) := by
  unfold sendMessageA
  rw [h]
  simp

theorem submit_suppressed_while_in_flight_witness :
    sendMessageA { demoA with isSubmitting := true } SendOutcome.success
      = ({ demoA with isSubmitting := true }, none) :=
  submit_suppressed_while_in_flight { demoA with isSubmitting := true } SendOutcome.success rfl

/-- C3 (counterexample): the generated id is `Date.now()` in the simple
variant; two `ReceiveMessage` events handled in the same millisecond (clock
value 5) produce two messages with the same id, refuting the claim that each
appended message's id is distinct from every id already in the log. -/
theorem same_millisecond_duplicate_id :
    ((receiveMessageS (receiveMessageS [] "a" "x" 5) "b" "y" 5).map (fun m => m.id) = [5, 5])
  ∧ ¬ ((receiveMessageS (receiveMessageS [] "a" "x" 5) "b" "y" 5).map (fun m => m.id)).Nodup := by
  decide

/-- C3 (amended): every `ReceiveMessage` event appends exactly one message at
the end of the log carrying the payload's author, body, optional timestamp,
optional author identifier, and the externally generated id value; a list of
events lands in the log in exactly receipt order; no handler shortens the
log; `sendMessage` never touches the log; and the appended id is distinct
from all ids already in the log whenever the generated value is itself fresh
(which `Date.now` / `Date.now() + Math.random()` does not guarantee). -/
theorem receive_appends_in_order :
    (∀ (msgs : List Message) (p : ReceivePayload),
        handleEvent msgs (HubEvent.receive p.user p.message p.timestamp p.msgUserId p.freshId)
          = msgs ++ [payloadMessage p])
  ∧ (∀ (msgs : List Message) (e : HubEvent), msgs.length ≤ (handleEvent msgs e).length)
  ∧ (∀ (msgs : List Message) (ps : List ReceivePayload),
        receiveAll msgs ps = msgs ++ ps.map payloadMessage)
  ∧ (∀ (s : SessionA) (o : SendOutcome), (sendMessageA s o).fst.messages = s.messages)
  ∧ (∀ (msgs : List Message) (p : ReceivePayload),
        (msgs.map (fun m => m.id)).Nodup → p.freshId ∉ msgs.map (fun m => m.id) →
        ((handleEvent msgs
            (HubEvent.receive p.user p.message p.timestamp p.msgUserId p.freshId)).map
          (fun m => m.id)).Nodup) := by
  refine ⟨?_, ?_, ?_, ?_, ?_⟩
  · intro msgs p
    rfl
  · intro msgs e
    cases e <;> simp [handleEvent, userNameUpdated]
  · intro msgs ps
    induction ps generalizing msgs with
    | nil => simp [receiveAll]
    | cons p ps ih =>
      simp only [receiveAll]
      rw [ih]
      simp [handleEvent, payloadMessage]
  · intro s o
    exact (sendA_fst_fields s o).2.1
  · intro msgs p hnd hfresh
    simp [handleEvent, List.nodup_append, hnd, hfresh]

theorem receive_appends_in_order_witness :
    receiveAll [] [pA, pB] = [payloadMessage pA, payloadMessage pB]
  ∧ ((handleEvent [msgA] (HubEvent.receive "b" "y" none none 9)).map (fun m => m.id)).Nodup := by
  have h := receive_appends_in_order
  constructor
  · rw [h.2.2.1]
    rfl
  · exact h.2.2.2.2 [msgA] { user := "b", message := "y", timestamp := none, msgUserId := none, freshId := 9 } (by decide) (by decide)

/-- C4 (counterexample): in the simple variant a name of trimmed length 1
is not blocked: `sendMessage` only requires the trimmed name and message to
be non-empty, so `SendMessage("A", "hi")` is emitted. -/
theorem short_name_sent_simple :
    ((jsTrim "A").length < NAME_MIN_LENGTH)
  ∧ (sendMessageS shortNameS SendOutcome.success).snd = some ("A", "hi") := by
  decide

/-- C4 (amended): in the identity-aware variant every out-of-bounds input
(name trimmed shorter than 2 or longer than 20, message empty after trimming
or trimmed longer than 500) is blocked before any network effect: no
`SendMessage` call is emitted.  In the simple variant only emptiness after
trimming (or a missing connection) blocks the submit. -/
theorem send_blocked_out_of_bounds (s : SessionA) (t : SessionS) (o : SendOutcome)
    (hA : (jsTrim s.userName).length < NAME_MIN_LENGTH
        ∨ NAME_MAX_LENGTH < (jsTrim s.userName).length
        ∨ jsTrim s.messageInput = ""
        ∨ MESSAGE_MAX_LENGTH < (jsTrim s.messageInput).length)
    (hS : jsTrim t.userName = "" ∨ jsTrim t.messageInput = "" ∨ t.hasConnection = false) :
    (sendMessageA s o).snd = none ∧ (sendMessageS t o).snd = none := by
  constructor
  · exact sendA_invalid_no_call s o (schemaError_out_of_bounds s.userName s.messageInput hA)
  · unfold sendMessageS
    rw [if_neg]
    rintro ⟨g1, g2, g3⟩
    rcases hS with h | h | h
    · exact g2 h
    · exact g1 h
    · rw [h] at g3
      exact Bool.false_ne_true g3

theorem send_blocked_out_of_bounds_witness :
    (sendMessageA { demoA with userName := "A" } SendOutcome.success).snd = none
  ∧ (sendMessageS { demoS with userName := " " } SendOutcome.success).snd = none :=
  send_blocked_out_of_bounds { demoA with userName := "A" } { demoS with userName := " " }
    SendOutcome.success (Or.inl (by decide)) (Or.inl (by decide))

/-- C5: the `UserNameUpdated` handler preserves the length of the log,
rewrites exactly the messages whose stored author identifier equals the
renamed identifier (replacing only the `user` field), leaves every other
message and every other field (id, body, timestamp, author identifier)
untouched, and is idempotent. -/
theorem userNameUpdated_exact_and_idempotent (msgs : List Message)
    (oldName newName : String) (uid : Option Nat) :
    (handleEvent msgs (HubEvent.renamed oldName newName uid)).length = msgs.length
  ∧ (∀ (i : Nat) (m : Message), msgs[i]? = some m → m.userId = uid →
      (handleEvent msgs (HubEvent.renamed oldName newName uid))[i]?
        = some { m with user := newName })
  ∧ (∀ (i : Nat) (m : Message), msgs[i]? = some m → m.userId ≠ uid →
      (handleEvent msgs (HubEvent.renamed oldName newName uid))[i]? = some m)
  ∧ ((handleEvent msgs (HubEvent.renamed oldName newName uid)).map
        (fun m => (m.id, m.message, m.timestamp, m.userId))
      = msgs.map (fun m => (m.id, m.message, m.timestamp, m.userId)))
  ∧ handleEvent (handleEvent msgs (HubEvent.renamed oldName newName uid))
      (HubEvent.renamed oldName newName uid)
    = handleEvent msgs (HubEvent.renamed oldName newName uid) := by
  refine ⟨?_, ?_, ?_, ?_, ?_⟩
  · simp [handleEvent, userNameUpdated]
  · intro i m hm hu
    simp [handleEvent, userNameUpdated, List.getElem?_map, hm, hu]
  · intro i m hm hu
    simp [handleEvent, userNameUpdated, List.getElem?_map, hm, hu]
  · simp only [handleEvent]
    unfold userNameUpdated
    rw [List.map_map]
    apply List.map_congr_left
    intro m _
    by_cases hm : m.userId = uid <;> simp [hm]
  · simp only [handleEvent]
    unfold userNameUpdated
    rw [List.map_map]
    apply List.map_congr_left
    intro m _
    by_cases hm : m.userId = uid <;> simp [hm]

theorem userNameUpdated_witness :
    (handleEvent [msgA, msgB] (HubEvent.renamed "Alice" "Alicia" (some 1)))[0]?
      = some { msgA with user := "Alicia" }
  ∧ (handleEvent [msgA, msgB] (HubEvent.renamed "Alice" "Alicia" (some 1)))[1]? = some msgB
  ∧ handleEvent (handleEvent [msgA, msgB] (HubEvent.renamed "Alice" "Alicia" (some 1)))
      (HubEvent.renamed "Alice" "Alicia" (some 1))
    = handleEvent [msgA, msgB] (HubEvent.renamed "Alice" "Alicia" (some 1)) := by
  have h := userNameUpdated_exact_and_idempotent [msgA, msgB] "Alice" "Alicia" (some 1)
  exact ⟨h.2.1 0 msgA rfl rfl, h.2.2.1 1 msgB rfl (by decide), h.2.2.2.2⟩

/-- C6: a successful submit with valid inputs clears the message input and
not the name, and no execution path of either variant's submit ever changes
the name field. -/
theorem send_clears_message_not_name (s : SessionA) (t : SessionS) (uid : Nat)
    (h1 : s.isSubmitting = false) (h2 : s.connected = true) (h3 : s.userId = some uid)
    (h4 : schemaError s.userName s.messageInput = none)
    (g1 : jsTrim t.messageInput ≠ "") (g2 : jsTrim t.userName ≠ "") (g3 : t.hasConnection = true) :
    (sendMessageA s SendOutcome.success).fst.messageInput = ""
  ∧ (sendMessageS t SendOutcome.success).fst.messageInput = ""
  ∧ (∀ (s2 : SessionA) (o2 : SendOutcome), (sendMessageA s2 o2).fst.userName = s2.userName)
  ∧ (∀ (t2 : SessionS) (o2 : SendOutcome), (sendMessageS t2 o2).fst.userName = t2.userName) := by
  refine ⟨?_, ?_, ?_, ?_⟩
  · rw [sendA_success_spec s uid h1 h2 h3 h4]
  · unfold sendMessageS
    rw [if_pos ⟨g1, g2, g3⟩]
  · intro s2 o2
    exact (sendA_fst_fields s2 o2).1
  · intro t2 o2
    exact sendS_fst_userName t2 o2

theorem send_clears_message_not_name_witness :
    (sendMessageA demoA SendOutcome.success).fst.messageInput = ""
  ∧ (sendMessageS demoS SendOutcome.success).fst.userName = "Bob" := by
  have h := send_clears_message_not_name demoA demoS 7 rfl rfl rfl (by decide) (by decide)
    (by decide) rfl
  exact ⟨h.1, h.2.2.2 demoS SendOutcome.success⟩

/-- C7: after a connection drop (`onclose`) followed by a transport
reconnect (`onreconnected`), the connection state is Connected again, and
the `joinChat` effect does not invoke `JoinChat` because its guard requires
`userId` to be unset. -/
theorem reconnect_restores_connected (s : SessionA) (uid : Nat)
    (h : s.userId = some uid) :
    (onReconnected (onClose s)).connected = true
  ∧ joinChatCall (onReconnected (onClose s)) = none
  ∧ joinChatCall s = none := by
  refine ⟨rfl, ?_, ?_⟩ <;> simp [joinChatCall, onReconnected, onClose, h]

theorem reconnect_restores_connected_witness :
    (onReconnected (onClose demoA)).connected = true
  ∧ joinChatCall (onReconnected (onClose demoA)) = none := by
  have h := reconnect_restores_connected demoA 7 rfl
  exact ⟨h.1, h.2.1⟩

/-- C8: every execution of the submit action from a non-submitting state
(success, remote failure, or any validation or guard short-circuit) ends
with `isSubmitting` false; the session never remains stuck submitting. -/
theorem submit_resets_isSubmitting (s : SessionA) (o : SendOutcome)
    (h : s.isSubmitting = false) :
    (sendMessageA s o).fst.isSubmitting = false := by
  unfold sendMessageA validate
  rcases he : schemaError s.userName s.messageInput with _ | e <;>
    simp only [he] <;> split
  · exact h
  rotate_left
  · exact h
  all_goals (split <;> try exact h)
  all_goals (split <;> try exact h)
  all_goals (cases o <;> rfl)

theorem submit_resets_isSubmitting_witness :
    (sendMessageA demoA SendOutcome.failure).fst.isSubmitting = false :=
  submit_resets_isSubmitting demoA SendOutcome.failure rfl

/-- C9: in the simple variant the emitted `SendMessage` call carries the
trimmed user name and the raw, untrimmed message input. -/
theorem simple_send_raw_body (t : SessionS) (o : SendOutcome)
    (g1 : jsTrim t.messageInput ≠ "") (g2 : jsTrim t.userName ≠ "") (g3 : t.hasConnection = true) :
    (sendMessageS t o).snd = some (jsTrim t.userName, t.messageInput) := by
  unfold sendMessageS
  rw [if_pos ⟨g1, g2, g3⟩]
  cases o <;> rfl

theorem simple_send_raw_body_witness :
    (sendMessageS demoS SendOutcome.success).snd = some ("Bob", " hi ")
  ∧ jsTrim " hi " ≠ " hi " := by
  constructor
  · have h := simple_send_raw_body demoS SendOutcome.success (by decide) (by decide) rfl
    rw [h]
    decide
  · decide

/-- C10: from a state with a previously displayed error, a successful
validation returns true and clears the stored error, while a failing
validation returns false and stores exactly the first failing rule's
message as the single error string. -/
theorem validate_single_error (s : SessionA) (prev : String)
    (hprev : s.validationErrors = some prev) :
    (schemaError s.userName s.messageInput = none →
      (validate s).fst = true ∧ (validate s).snd.validationErrors = none)
  ∧ (∀ e, schemaError s.userName s.messageInput = some e →
      (validate s).fst = false ∧ (validate s).snd.validationErrors = some e) := by
  constructor
  · intro h
    rw [validate_eq_none s h]
    exact ⟨rfl, rfl⟩
  · intro e h
    rw [validate_eq_some s e h]
    exact ⟨rfl, rfl⟩

theorem validate_single_error_witness :
    (validate demoA).fst = true ∧ (validate demoA).snd.validationErrors = none :=
  (validate_single_error demoA "old error" rfl).1 (by decide)

end ChatApp
